import Mathlib

/-!
Verification of the corpo-em-foco-ia fitness application.

Shallow embedding of the four source files:
* `supabase/functions/cleanup-expired-accounts/index.ts`  (namespace `Cleanup`)
* `supabase/functions/generate-workout-plan/index.ts`     (namespace `GenPlan`)
* `src/components/WorkoutPlanGenerator.tsx`               (namespaces `Frontend`, `Streak`)
* `src/components/onboarding/OnboardingChecklist.tsx`     (namespace `Onboarding`)

Modelling conventions:
* JavaScript numbers that hold integral quantities (XP, timestamps in
  milliseconds, week counts) are embedded as `Int`/`Nat`.
* JSON values are embedded by the inductive type `Json`; `JSON.parse` of an
  external string is an oracle input (`Option Json`), everything after the
  parse is translated from the source.
* Calendar days are embedded as the number of days since 1970-01-01 (a
  Thursday); `toDateString` renders the same `"Www Mmm DD YYYY"` text that
  the JavaScript `Date.prototype.toDateString` produces, via the standard
  civil-from-days calendar algorithm.  Days are treated as exactly 24 h
  (daylight-saving shifts are not modelled).
-/

/-- A JSON value.  Numbers are restricted to integers, which covers every
numeric literal the verified code paths inspect (12, 8, 200, ...). -/
inductive Json where
  | null : Json
  | bool (b : Bool) : Json
  | num (n : Int) : Json
  | str (s : String) : Json
  | arr (elems : List Json) : Json
  | obj (fields : List (String × Json)) : Json

namespace Json

/-- JavaScript truthiness of a JSON value (NaN does not arise here). -/
def truthy : Json → Bool
  | .null => false
  | .bool b => b
  | .num n => n != 0
  | .str s => s != ""
  | .arr _ => true
  | .obj _ => true

/-- Property read `j[k]`; `none` plays the role of `undefined`. -/
def getField : Json → String → Option Json
  | .obj fs, k => fs.lookup k
  | _, _ => none

/-- Truthiness of a possibly-undefined value. -/
def truthyOpt : Option Json → Bool
  | none => false
  | some j => truthy j

/-- Model of `Array.isArray` on a possibly-undefined value. -/
def isArray : Option Json → Bool
  | some (.arr _) => true
  | _ => false

/-- Assignment into an association list: overwrite the first binding of the
key, or append a fresh binding (JavaScript property-assignment order). -/
def setFieldList : List (String × Json) → String → Json → List (String × Json)
  | [], k, v => [(k, v)]
  | (k', v') :: rest, k, v =>
      if k' = k then (k, v) :: rest else (k', v') :: setFieldList rest k v

/-- Property write `j[k] = v`.  On a non-object the write is dropped, which
matches the observable effect in the source: writes to primitives are
silent no-ops, and properties added to arrays are not serialised by
`JSON.stringify`. -/
def setField (j : Json) (k : String) (v : Json) : Json :=
  match j with
  | .obj fs => .obj (setFieldList fs k v)
  | other => other

theorem lookup_setFieldList_same (fs : List (String × Json)) (k : String) (v : Json) :
    (setFieldList fs k v).lookup k = some v := by
  induction fs with
  | nil => simp [setFieldList]
  | cons hd tl ih =>
    obtain ⟨k', v'⟩ := hd
    by_cases h : k' = k
    · simp [setFieldList, h, List.lookup]
    · simp only [setFieldList, if_neg h, List.lookup]
      have : (k == k') = false := by
        simp [beq_iff_eq]
        exact fun hc => h hc.symm
      simp [this, ih]

theorem lookup_setFieldList_other (fs : List (String × Json)) (k k' : String) (v : Json)
    (h : k' ≠ k) : (setFieldList fs k v).lookup k' = fs.lookup k' := by
  induction fs with
  | nil =>
    have : (k' == k) = false := by simp [beq_iff_eq, h]
    simp [setFieldList, List.lookup, this]
  | cons hd tl ih =>
    obtain ⟨k₀, v₀⟩ := hd
    by_cases hk : k₀ = k
    · subst hk
      have h1 : (k' == k₀) = false := by simp [beq_iff_eq, h]
      simp [setFieldList, List.lookup, h1]
    · simp only [setFieldList, if_neg hk, List.lookup]
      cases hbe : (k' == k₀) <;> simp [hbe, ih]

theorem getField_setField_same (fs : List (String × Json)) (k : String) (v : Json) :
    getField (setField (.obj fs) k v) k = some v := by
  simp [setField, getField, lookup_setFieldList_same]

theorem getField_setField_other (j : Json) (k k' : String) (v : Json) (h : k' ≠ k) :
    getField (setField j k v) k' = getField j k' := by
  cases j <;> simp [setField, getField]
  exact lookup_setFieldList_other _ _ _ _ h

end Json

/-! ## OnboardingChecklist.tsx — XP levels (claims C6, C10) -/

namespace Onboarding

/-- One entry of the `levels` array (the React icon node is not part of the
data the lookup logic reads and is omitted). -/
structure UserLevel where
  level : Nat
  title : String
  xpRequired : Int
  color : String
deriving Repr, DecidableEq

/-- The `levels` array of `GamificationSection`. -/
def levels : List UserLevel :=
  [⟨1, "Iniciante", 0, "bg-gray-100 text-gray-800"⟩,
   ⟨2, "Guerreiro", 100, "bg-green-100 text-green-800"⟩,
   ⟨3, "Atleta", 300, "bg-blue-100 text-blue-800"⟩,
   ⟨4, "Veterano", 600, "bg-purple-100 text-purple-800"⟩,
   ⟨5, "Mestre", 1000, "bg-orange-100 text-orange-800"⟩,
   ⟨6, "Lenda", 1500, "bg-yellow-100 text-yellow-800"⟩]

/-- Model of `getCurrentLevelData`: first element of the reversed array whose
threshold is at most the XP, defaulting to `levels[0]`. -/
def getCurrentLevelData (xp : Int) : UserLevel :=
  (levels.reverse.find? (fun l => xp ≥ l.xpRequired)).getD
    ⟨1, "Iniciante", 0, "bg-gray-100 text-gray-800"⟩

/-- Model of `getNextLevel`: first element whose threshold strictly exceeds the XP
(`null` becomes `none`). -/
def getNextLevel (xp : Int) : Option UserLevel :=
  levels.find? (fun l => xp < l.xpRequired)

/-- Closed form of `getCurrentLevelData`. -/
theorem getCurrentLevelData_eq (xp : Int) :
    getCurrentLevelData xp =
      if 1500 ≤ xp then ⟨6, "Lenda", 1500, "bg-yellow-100 text-yellow-800"⟩
      else if 1000 ≤ xp then ⟨5, "Mestre", 1000, "bg-orange-100 text-orange-800"⟩
      else if 600 ≤ xp then ⟨4, "Veterano", 600, "bg-purple-100 text-purple-800"⟩
      else if 300 ≤ xp then ⟨3, "Atleta", 300, "bg-blue-100 text-blue-800"⟩
      else if 100 ≤ xp then ⟨2, "Guerreiro", 100, "bg-green-100 text-green-800"⟩
      else ⟨1, "Iniciante", 0, "bg-gray-100 text-gray-800"⟩ := by
  unfold getCurrentLevelData levels
  by_cases h1 : 1500 ≤ xp
  · simp [List.find?, h1]
  by_cases h2 : 1000 ≤ xp
  · simp [List.find?, h1, h2]
  by_cases h3 : 600 ≤ xp
  · simp [List.find?, h1, h2, h3]
  by_cases h4 : 300 ≤ xp
  · simp [List.find?, h1, h2, h3, h4]
  by_cases h5 : 100 ≤ xp
  · simp [List.find?, h1, h2, h3, h4, h5]
  by_cases h6 : 0 ≤ xp
  · simp [List.find?, h1, h2, h3, h4, h5, h6]
  · simp [List.find?, h1, h2, h3, h4, h5, h6]

/-- Closed form of `getNextLevel`. -/
theorem getNextLevel_eq (xp : Int) :
    getNextLevel xp =
      if xp < 100 then
        (if xp < 0 then some ⟨1, "Iniciante", 0, "bg-gray-100 text-gray-800"⟩
         else some ⟨2, "Guerreiro", 100, "bg-green-100 text-green-800"⟩)
      else if xp < 300 then some ⟨3, "Atleta", 300, "bg-blue-100 text-blue-800"⟩
      else if xp < 600 then some ⟨4, "Veterano", 600, "bg-purple-100 text-purple-800"⟩
      else if xp < 1000 then some ⟨5, "Mestre", 1000, "bg-orange-100 text-orange-800"⟩
      else if xp < 1500 then some ⟨6, "Lenda", 1500, "bg-yellow-100 text-yellow-800"⟩
      else none := by
  unfold getNextLevel levels
  by_cases h0 : xp < 0
  · have h1 : xp < 100 := by omega
    simp [List.find?, h0, h1]
  by_cases h1 : xp < 100
  · simp [List.find?, h0, h1]
  by_cases h2 : xp < 300
  · simp [List.find?, h0, h1, h2]
  by_cases h3 : xp < 600
  · simp [List.find?, h0, h1, h2, h3]
  by_cases h4 : xp < 1000
  · simp [List.find?, h0, h1, h2, h3, h4]
  by_cases h5 : xp < 1500
  · simp [List.find?, h0, h1, h2, h3, h4, h5]
  · simp [List.find?, h0, h1, h2, h3, h4, h5]

/-- C6: for every non-negative XP value, `getCurrentLevelData` returns a
member of `levels` whose threshold is the greatest one not exceeding the XP
(the thresholds being 0, 100, 300, 600, 1000, 1500 for levels 1-6), and
`getNextLevel` returns the level with the smallest threshold strictly above
the XP, or `none` exactly when the XP is at least 1500. -/
theorem C6_xp_level_threshold_lookup (xp : Int) (hxp : 0 ≤ xp) :
    (getCurrentLevelData xp ∈ levels ∧
     (getCurrentLevelData xp).xpRequired ≤ xp ∧
     (∀ l ∈ levels, l.xpRequired ≤ xp →
        l.xpRequired ≤ (getCurrentLevelData xp).xpRequired)) ∧
    (∀ l, getNextLevel xp = some l →
       l ∈ levels ∧ xp < l.xpRequired ∧
       (∀ l' ∈ levels, xp < l'.xpRequired → l.xpRequired ≤ l'.xpRequired)) ∧
    (getNextLevel xp = none ↔ 1500 ≤ xp) := by
  rw [getCurrentLevelData_eq, getNextLevel_eq]
  have h0 : ¬ xp < 0 := by omega
  refine ⟨?_, ?_, ?_⟩
  · split_ifs with h1 h2 h3 h4 h5 <;>
      refine ⟨by simp [levels], by simp; omega, ?_⟩ <;>
      · intro l hl
        fin_cases hl <;> simp <;> omega
  · intro l
    split_ifs with h1 h2 h3 h4 h5 <;> intro hsome <;>
      simp [h0] at hsome <;> subst hsome <;>
      refine ⟨by simp [levels], by simp; omega, ?_⟩ <;>
      · intro l' hl'
        fin_cases hl' <;> simp <;> omega
  · split_ifs with h1 h2 h3 h4 h5 <;> simp [h0] <;> omega

/-- C6 witness: instantiation at XP = 250 (level 3 territory). -/
theorem C6_xp_level_threshold_lookup_witness :
    (getCurrentLevelData 250 ∈ levels ∧
     (getCurrentLevelData 250).xpRequired ≤ 250 ∧
     (∀ l ∈ levels, l.xpRequired ≤ 250 →
        l.xpRequired ≤ (getCurrentLevelData 250).xpRequired)) ∧
    (∀ l, getNextLevel 250 = some l →
       l ∈ levels ∧ 250 < l.xpRequired ∧
       (∀ l' ∈ levels, 250 < l'.xpRequired → l.xpRequired ≤ l'.xpRequired)) ∧
    (getNextLevel 250 = none ↔ (1500:Int) ≤ 250) :=
  C6_xp_level_threshold_lookup 250 (by norm_num)

/-- C10: `getCurrentLevelData` is total — it yields a level numbered
between 1 and 6 for every XP value, including negative ones — and the level
number is monotone in the XP. -/
theorem C10_level_lookup_total_monotone :
    (∀ xp : Int, 1 ≤ (getCurrentLevelData xp).level ∧
       (getCurrentLevelData xp).level ≤ 6) ∧
    (∀ x1 x2 : Int, x1 ≤ x2 →
       (getCurrentLevelData x1).level ≤ (getCurrentLevelData x2).level) := by
  constructor
  · intro xp
    rw [getCurrentLevelData_eq]
    split_ifs <;> simp
  · intro x1 x2 h
    rw [getCurrentLevelData_eq, getCurrentLevelData_eq]
    split_ifs <;> simp <;> omega

/-- C10 witness: totality at XP = -50 and monotonicity across 50 ≤ 700. -/
theorem C10_level_lookup_total_monotone_witness :
    (1 ≤ (getCurrentLevelData (-50)).level ∧ (getCurrentLevelData (-50)).level ≤ 6) ∧
    (getCurrentLevelData 50).level ≤ (getCurrentLevelData 700).level :=
  ⟨C10_level_lookup_total_monotone.1 (-50),
   C10_level_lookup_total_monotone.2 50 700 (by norm_num)⟩

end Onboarding

/-! ## cleanup-expired-accounts/index.ts (claims C1, C2) -/

namespace Cleanup

/-- A row of the `subscriptions` table, restricted to the columns the
cleanup function reads.  `expires_at` is a millisecond epoch timestamp;
the PostgREST comparison of ISO-8601 timestamp strings is order-isomorphic
to the numeric comparison. -/
structure SubRow where
  user_id : String
  status : String
  expires_at : Int
deriving Repr, DecidableEq

/-- A row of `auth.users`, restricted to the columns the function reads.
`created_at` is a millisecond epoch timestamp. -/
structure AuthUser where
  id : String
  email : String
  created_at : Int
deriving Repr, DecidableEq

/-- Model of `.maybeSingle()` of supabase-js: zero rows give `(none, no error)`, one
row gives the row, and more than one row gives null data together with a
PGRST116 error ("JSON object requested, multiple (or no) rows returned"). -/
def maybeSingle (rows : List SubRow) : Option SubRow × Option String :=
  match rows with
  | [] => (none, none)
  | [r] => (some r, none)
  | _ => (none, some "PGRST116")

/-- The rows matched by the first query:
`.eq(user_id).eq(status,"active").gte(expires_at, now)`. -/
def activeMatches (subs : List SubRow) (uid : String) (now : Int) : List SubRow :=
  subs.filter (fun r => r.user_id == uid && r.status == "active" && now ≤ r.expires_at)

/-- The rows matched by the second query:
`.eq(user_id).in(status, ["active", "expired", "cancelled"])`. -/
def paidHistoryMatches (subs : List SubRow) (uid : String) : List SubRow :=
  subs.filter (fun r => r.user_id == uid &&
    (r.status == "active" || r.status == "expired" || r.status == "cancelled"))

/-- What the per-user loop body decides to do with a user. -/
inductive UserAction where
  | keep : UserAction
  | delete : UserAction
deriving Repr, DecidableEq

/-- The subscription checks of the per-user loop (lines 96-133), assuming
the only database error that occurs is the PGRST116 produced by
`maybeSingle` itself.  A `continue` (user kept this run) is `keep`; falling
through to the deletion block is `delete`. -/
def processUser (subs : List SubRow) (uid : String) (now : Int) : UserAction :=
  let q1 := maybeSingle (activeMatches subs uid now)
  if q1.2.isSome && q1.2 != some "PGRST116" then .keep
  else if q1.1.isSome then .keep
  else
    let q2 := maybeSingle (paidHistoryMatches subs uid)
    if q2.2.isSome && q2.2 != some "PGRST116" then .keep
    else if q2.1.isSome then .keep
    else .delete

/-- The 48-hour cutoff: `now - 48 * 60 * 60 * 1000` milliseconds. -/
def limitDate (nowMs : Int) : Int := nowMs - 48 * 60 * 60 * 1000

/-- The direct SQL path: `.lt(created_at, limitDate.toISOString())`. -/
def expiredUsersQuery (users : List AuthUser) (nowMs : Int) : List AuthUser :=
  users.filter (fun u => u.created_at < limitDate nowMs)

/-- The paginated admin-API loop: pages are fetched until one comes back
empty or shorter than `perPage`. -/
def collectAllUsers (pages : List (List AuthUser)) (perPage : Nat) : List AuthUser :=
  match pages with
  | [] => []
  | p :: rest =>
      if p.length = 0 then []
      else if p.length < perPage then p
      else p ++ collectAllUsers rest perPage

/-- The fallback path filter over the collected users (lines 72-77). -/
def filteredUsers (pages : List (List AuthUser)) (nowMs : Int) : List AuthUser :=
  (collectAllUsers pages 1000).filter (fun u => u.created_at < limitDate nowMs)

/-- Model of `usersToCheck`: the direct query result when that query succeeded,
otherwise the paginated fallback result. -/
def usersToCheck (directOk : Bool) (table : List AuthUser)
    (pages : List (List AuthUser)) (nowMs : Int) : List AuthUser :=
  if directOk then expiredUsersQuery table nowMs else filteredUsers pages nowMs

/-- C1 (code_bug evidence): a user with two simultaneously active, unexpired
subscription rows is sent to the deletion block.  Both `maybeSingle` calls
see two matching rows, return null data with a PGRST116 error, and the
handler treats PGRST116 exactly like "no subscription found", so neither
keep-branch fires even though the claim antecedent (at least one active row)
holds. -/
theorem C1_active_subscriber_deleted :
    1 ≤ (activeMatches
          [⟨"u1", "active", 100⟩, ⟨"u1", "active", 200⟩] "u1" 0).length ∧
    1 ≤ (paidHistoryMatches
          [⟨"u1", "active", 100⟩, ⟨"u1", "active", 200⟩] "u1").length ∧
    processUser [⟨"u1", "active", 100⟩, ⟨"u1", "active", 200⟩] "u1" 0 =
      .delete := by
  decide

/-- C2: every user in `usersToCheck` — on either the direct-query path or
the paginated fallback path — was created strictly more than 48 hours
before the reference time, so in particular every user reaching the
deletion block was. -/
theorem C2_deleted_accounts_older_than_48h (directOk : Bool)
    (table : List AuthUser) (pages : List (List AuthUser)) (nowMs : Int)
    (u : AuthUser) (hu : u ∈ usersToCheck directOk table pages nowMs) :
    u.created_at < nowMs - 48 * 60 * 60 * 1000 := by
  unfold usersToCheck expiredUsersQuery filteredUsers limitDate at hu
  cases directOk <;> simp only [if_true, if_false, Bool.false_eq_true,
    ite_true, ite_false, List.mem_filter, decide_eq_true_eq] at hu <;> omega

/-- C2 witness: a user created at epoch 0 checked 48 h + 1 ms later, on the
direct-query path. -/
theorem C2_deleted_accounts_older_than_48h_witness :
    (⟨"u1", "a@b.c", 0⟩ : AuthUser).created_at < 172800001 - 48 * 60 * 60 * 1000 :=
  C2_deleted_accounts_older_than_48h true [⟨"u1", "a@b.c", 0⟩] [] 172800001
    ⟨"u1", "a@b.c", 0⟩ (by simp [usersToCheck, expiredUsersQuery, limitDate])

end Cleanup

/-! ## generate-workout-plan/index.ts (claims C3, C4, C7, C9) -/

namespace GenPlan

/-- The `userProfile` object of the request body.  Absent or `null` fields
are `none`; JavaScript treats both the same on every access below. -/
structure UserProfile where
  age : Option Int
  gender : Option String
  height : Option Int
  weight : Option Int
  fitness_level : Option String
  fitness_goals : Option (List String)
  available_days : Option Nat
  session_duration : Option Nat
  equipment : Option String
  limitations : Option String
deriving Repr, DecidableEq

/-- Model of `mapFitnessLevelToDifficulty` (lines 357-373). -/
def mapFitnessLevelToDifficulty (fitnessLevel : String) : String :=
  if fitnessLevel = "sedentario" ∨ fitnessLevel = "pouco_ativo" ∨
     fitnessLevel = "iniciante" then "iniciante"
  else if fitnessLevel = "moderado" ∨ fitnessLevel = "ativo" ∨
     fitnessLevel = "intermediario" then "intermediario"
  else if fitnessLevel = "muito_ativo" ∨ fitnessLevel = "avancado" then "avancado"
  else "iniciante"

/-- Model of `userProfile?.fitness_level || "iniciante"` (the empty string is the
only falsy string). -/
def levelOf (p : Option UserProfile) : String :=
  match p with
  | none => "iniciante"
  | some pr =>
    match pr.fitness_level with
    | none => "iniciante"
    | some s => if s = "" then "iniciante" else s

/-- Model of `userProfile?.fitness_goals?.[0] || "condicionamento geral"`. -/
def firstGoalOf (p : Option UserProfile) : String :=
  match p with
  | none => "condicionamento geral"
  | some pr =>
    match pr.fitness_goals with
    | none => "condicionamento geral"
    | some gs =>
      match gs.head? with
      | none => "condicionamento geral"
      | some g => if g = "" then "condicionamento geral" else g

/-- Model of `userProfile?.available_days || 3` (0 is falsy). -/
def daysOf (p : Option UserProfile) : Nat :=
  match p with
  | none => 3
  | some pr =>
    match pr.available_days with
    | none => 3
    | some d => if d = 0 then 3 else d

/-- The `goalsDescription` lookup object of `createFallbackPlan`. -/
def goalsDescription (g : String) : Option String :=
  if g = "perder_peso" then some "perda de peso e queima de gordura"
  else if g = "ganhar_massa" then some "ganho de massa muscular"
  else if g = "tonificar" then some "tonificação corporal"
  else if g = "condicionamento" then some "melhora do condicionamento físico"
  else if g = "forca" then some "aumento da força"
  else if g = "flexibilidade" then some "melhora da flexibilidade"
  else if g = "geral" then some "condicionamento geral"
  else if g = "hipertrofia" then some "ganho de massa muscular e hipertrofia"
  else none

/-- One exercise entry of a plan. -/
structure Exercise where
  name : String
  sets : Nat
  reps : String
  rest : String
  instructions : String
deriving Repr, DecidableEq

/-- A workout plan object as `createFallbackPlan` returns it. -/
structure Plan where
  title : String
  description : String
  difficulty_level : String
  duration_weeks : Nat
  source : String
  exercises : List Exercise
  nutrition_tips : List String
deriving Repr, DecidableEq

/-- The `weekNames` array (index 0 unused). -/
def weekNames : List String :=
  ["", "PRIMEIRA", "SEGUNDA", "TERCEIRA", "QUARTA", "QUINTA", "SEXTA",
   "SÉTIMA", "OITAVA", "NONA", "DÉCIMA", "DÉCIMA PRIMEIRA", "DÉCIMA SEGUNDA"]

/-- The `dayLetters` array (index 0 unused). -/
def dayLetters : List String := ["", "A", "B", "C", "D", "E", "F", "G"]

/-- The day-A exercise list, used directly and as the `|| exercisesByDay['A']`
fallback. -/
def dayAExercises : List String :=
  ["Agachamento Livre", "Flexão de Braço", "Prancha Isométrica"]

/-- The `exercisesByDay` lookup object; letters F and G (and the
out-of-range "undefined") are not keys. -/
def exercisesByDay (letter : String) : Option (List String) :=
  if letter = "A" then some dayAExercises
  else if letter = "B" then some ["Afundo Alternado", "Flexão Inclinada", "Ponte Glútea"]
  else if letter = "C" then some ["Agachamento Sumo", "Flexão Diamante", "Mountain Climber"]
  else if letter = "D" then some ["Agachamento Búlgaro", "Flexão Declinada", "Prancha Lateral"]
  else if letter = "E" then some ["Agachamento Jump", "Flexão Hindu", "Burpee Modificado"]
  else none

/-- Model of `difficultyLevel.charAt(0).toUpperCase() + difficultyLevel.slice(1)`
(all strings capitalised here start with an ASCII letter). -/
def capitalizeFirst (s : String) : String :=
  match s.data with
  | [] => ""
  | c :: rest => String.mk (c.toUpper :: rest)

/-- The warm-up entry pushed for each (week, day). -/
def warmupFor (difficultyLevel weekName dayLetter : String) : Exercise :=
  ⟨weekName ++ " SEMANA - Aquecimento (Treino " ++ dayLetter ++ ")",
   1, "8-10 minutos", "N/A",
   "Aquecimento específico para Treino " ++ dayLetter ++
     ": rotações articulares, mobilidade dinâmica e ativação cardiovascular. " ++
     weekName ++ " SEMANA: Preparação progressiva adequada ao nível " ++
     difficultyLevel ++ "."⟩

/-- One main-exercise entry (`dayExercises.forEach` body). -/
def mainExercise (difficultyLevel goalDesc weekName dayLetter : String)
    (week idx : Nat) (exerciseName : String) : Exercise :=
  ⟨weekName ++ " SEMANA - Treino " ++ dayLetter ++ ": " ++ exerciseName,
   if week ≤ 4 then 2 + idx else 3 + idx,
   if week ≤ 4 then "8-10" else "10-15",
   "60-90s",
   "EXECUÇÃO TÉCNICA: Técnica biomecânica detalhada para " ++ exerciseName ++
     ". " ++ weekName ++ " SEMANA: Progressão adequada considerando " ++
     goalDesc ++ ". MÚSCULOS: Grupos musculares específicos trabalhados. " ++
     "ADAPTAÇÕES: Considerações para nível " ++ difficultyLevel ++ "."⟩

/-- The entries pushed by one iteration of the inner day loop: one warm-up
followed by the three main exercises of the day. -/
def dayBlock (difficultyLevel goalDesc : String) (week day : Nat) : List Exercise :=
  let weekName := weekNames.getD week "undefined"
  let dayLetter := dayLetters.getD day "undefined"
  let dayExercises := (exercisesByDay dayLetter).getD dayAExercises
  warmupFor difficultyLevel weekName dayLetter ::
    dayExercises.enum.map
      (fun pr => mainExercise difficultyLevel goalDesc weekName dayLetter week pr.1 pr.2)

/-- The full `exercises` array built by the nested week/day loops
(weeks 1-12, days 1-availableDays). -/
def fallbackExercises (difficultyLevel goalDesc : String) (availableDays : Nat) :
    List Exercise :=
  (List.range' 1 12).flatMap (fun week =>
    (List.range' 1 availableDays).flatMap (fun day =>
      dayBlock difficultyLevel goalDesc week day))

/-- The `nutrition_tips` literal of the fallback plan. -/
def fallbackNutritionTips : List String :=
  ["PRIMEIRA E SEGUNDA SEMANA: Proteína pós-treino moderada (15-20g) para adaptação inicial",
   "TERCEIRA SEMANA: Aumento para 25-30g de proteína pós-treino para suporte à recuperação",
   "Hidratação progressiva: 35ml por kg de peso + 300ml extra na primeira semana, 500ml extra da segunda semana em diante",
   "Carboidratos pré-treino: começar com 20-30g na primeira semana, progredir para 30-50g",
   "Timing nutricional: manter consistência nos horários das refeições para regular o metabolismo",
   "Sono reparador: 7-9h por noite, especialmente importante nas primeiras semanas de adaptação",
   "Suplementação básica: considere apenas após a terceira semana, quando o corpo estiver adaptado"]

/-- The body of `createFallbackPlan` after the three profile reads; the
function output is fully determined by `(level, goals, availableDays)`. -/
def buildFallbackPlan (level goals : String) (availableDays : Nat) : Plan :=
  let difficultyLevel := mapFitnessLevelToDifficulty level
  let goalDesc := (goalsDescription goals).getD "condicionamento geral"
  ⟨"Plano Periodizado " ++ capitalizeFirst difficultyLevel ++ " - " ++
     capitalizeFirst goalDesc,
   "Plano periodizado de 12 semanas específico para " ++ goalDesc ++
     " para nível " ++ difficultyLevel ++ ", com " ++ toString availableDays ++
     " sessões semanais. Este treino foi desenvolvido considerando seu perfil e objetivos específicos.",
   difficultyLevel,
   12,
   "fallback",
   fallbackExercises difficultyLevel goalDesc availableDays,
   fallbackNutritionTips⟩

/-- Model of `createFallbackPlan` (lines 375-458). -/
def createFallbackPlan (p : Option UserProfile) : Plan :=
  buildFallbackPlan (levelOf p) (firstGoalOf p) (daysOf p)

end GenPlan

namespace GenPlan

/-- The `goalsMap` of the prompt path. -/
def goalsMap (g : String) : Option String :=
  if g = "perder_peso" then some "perder peso e queimar gordura corporal"
  else if g = "ganhar_massa" then some "ganhar massa muscular e hipertrofia"
  else if g = "tonificar" then some "tonificar o corpo e definir músculos"
  else if g = "condicionamento" then some "melhorar condicionamento cardiovascular"
  else if g = "forca" then some "aumentar força e potência muscular"
  else if g = "flexibilidade" then some "melhorar flexibilidade e mobilidade"
  else if g = "geral" then some "condicionamento físico geral"
  else if g = "hipertrofia" then some "ganhar massa muscular e hipertrofia"
  else none

/-- The `equipmentMap` of the prompt path. -/
def equipmentMap (e : String) : Option String :=
  if e = "academia_completa" then some "academia completa com halteres, barras, máquinas de musculação, esteiras e equipamentos de cardio"
  else if e = "casa_halteres" then some "treino em casa com halteres, barras, elásticos e equipamentos básicos"
  else if e = "casa_basico" then some "treino em casa com equipamentos básicos limitados"
  else if e = "peso_corporal" then some "exercícios usando apenas o peso corporal, sem equipamentos"
  else if e = "parque" then some "exercícios ao ar livre em parques com barras e equipamentos públicos"
  else none

/-- The `limitationsMap` of the prompt path. -/
def limitationsMap (l : String) : Option String :=
  if l = "nenhuma" then some "nenhuma limitação física"
  else if l = "joelho" then some "problemas no joelho - evitar impacto e sobrecarga"
  else if l = "costas" then some "problemas nas costas - foco em fortalecimento do core"
  else if l = "ombro" then some "problemas no ombro - evitar movimentos overhead"
  else if l = "tornozelo" then some "problemas no tornozelo - exercícios de baixo impacto"
  else if l = "cardiaco" then some "problemas cardíacos - intensidade moderada controlada"
  else if l = "outros" then some "outras limitações físicas específicas"
  else none

/-- The `fitnessLevelMap` of the prompt path. -/
def fitnessLevelMap (f : String) : Option String :=
  if f = "sedentario" then some "sedentário - iniciante absoluto sem experiência em exercícios"
  else if f = "pouco_ativo" then some "pouco ativo - experiência limitada com exercícios"
  else if f = "moderado" then some "moderadamente ativo - alguma experiência com treinos"
  else if f = "ativo" then some "ativo - experiência regular com exercícios"
  else if f = "muito_ativo" then some "muito ativo - experiência avançada em treinamento"
  else if f = "avancado" then some "atlético avançado - alto nível de condicionamento"
  else if f = "iniciante" then some "iniciante - pouca experiência em treinamento"
  else none

/-- Model of `map[x] || x || default`: the Portuguese description when mapped, the
raw (truthy) value when not, the default when absent or empty. -/
def mapOrRaw (lookup : String → Option String) (raw : Option String)
    (dflt : String) : String :=
  match raw with
  | none => dflt
  | some r =>
    match lookup r with
    | some v => v
    | none => if r = "" then dflt else r

/-- Model of `userProfile.fitness_goals?.[0]` as a raw optional string. -/
def rawFirstGoal (p : UserProfile) : Option String :=
  match p.fitness_goals with
  | none => none
  | some gs => gs.head?

/-- Model of `goals` as computed for the prompt and `generated_for` (line 79). -/
def promptGoals (p : UserProfile) : String :=
  mapOrRaw goalsMap (rawFirstGoal p) "melhorar condicionamento geral"

/-- Model of `equipment` (line 80). -/
def promptEquipment (p : UserProfile) : String :=
  mapOrRaw equipmentMap p.equipment "equipamentos básicos"

/-- Model of `limitations` (line 81). -/
def promptLimitations (p : UserProfile) : String :=
  mapOrRaw limitationsMap p.limitations "nenhuma limitação"

/-- Model of `fitnessLevel` (line 82). -/
def promptFitnessLevel (p : UserProfile) : String :=
  mapOrRaw fitnessLevelMap p.fitness_level "iniciante"

/-- Model of `availableDays = userProfile.available_days || 3` (line 83). -/
def promptDays (p : UserProfile) : Nat :=
  match p.available_days with
  | none => 3
  | some d => if d = 0 then 3 else d

/-- Model of `userProfile.session_duration || 60` (line 312). -/
def promptDuration (p : UserProfile) : Nat :=
  match p.session_duration with
  | none => 60
  | some d => if d = 0 then 60 else d

/-- Model of `String.prototype.trim()`: strip leading and trailing whitespace
(space, tab, line and paragraph separators; the characters that occur in
this data are covered).  Implemented on the character list so that it
reduces definitionally. -/
def jsWhitespace (c : Char) : Bool :=
  c = ' ' || c = '\t' || c = '\n' || c = '\r' || c = '\x0b' || c = '\x0c'

/-- JavaScript `trim` on a string. -/
def jsTrim (s : String) : String :=
  String.mk (((s.data.dropWhile jsWhitespace).reverse.dropWhile jsWhitespace).reverse)

/-- The `generated_for` object attached to a successful Groq plan. -/
def generatedFor (p : UserProfile) : Json :=
  .obj [("goals", .str (promptGoals p)),
        ("equipment", .str (promptEquipment p)),
        ("level", .str (promptFitnessLevel p)),
        ("limitations", .str (promptLimitations p)),
        ("days", .num (promptDays p)),
        ("duration", .num (promptDuration p))]

/-- The `validLevels` array (line 294). -/
def validLevels : List String := ["iniciante", "intermediario", "avancado"]

/-- Model of `mapFitnessLevelToDifficulty(userProfile.fitness_level)` where the raw
field may be absent (the switch default then yields "iniciante"). -/
def mapFitnessOpt (o : Option String) : String :=
  mapFitnessLevelToDifficulty (o.getD "")

/-- Lines 294-297: replace `difficulty_level` unless it already is one of
the three valid strings (a falsy, non-string, or unlisted value is
replaced). -/
def fixDifficulty (j : Json) (p : UserProfile) : Json :=
  match Json.getField j "difficulty_level" with
  | some (.str s) =>
      if s ∈ validLevels then j
      else Json.setField j "difficulty_level" (.str (mapFitnessOpt p.fitness_level))
  | _ => Json.setField j "difficulty_level" (.str (mapFitnessOpt p.fitness_level))

/-- Line 300: `!title || !exercises || !Array.isArray(exercises)` throws to
the inner catch. -/
def structureOk (j : Json) : Bool :=
  Json.truthyOpt (Json.getField j "title") &&
  Json.truthyOpt (Json.getField j "exercises") &&
  Json.isArray (Json.getField j "exercises")

/-- The Groq-success body: difficulty fixed, then `source` and
`generated_for` attached (lines 293-313). -/
def groqBody (j : Json) (p : UserProfile) : Json :=
  Json.setField
    (Json.setField (fixDifficulty j p) "source" (.str "groq_api"))
    "generated_for" (generatedFor p)

/-- JSON serialisation of an exercise entry. -/
def exerciseToJson (e : Exercise) : Json :=
  .obj [("name", .str e.name), ("sets", .num e.sets), ("reps", .str e.reps),
        ("rest", .str e.rest), ("instructions", .str e.instructions)]

/-- Model of `JSON.stringify` view of a fallback plan, with the field order of the
object literal. -/
def planToJson (p : Plan) : Json :=
  .obj [("title", .str p.title),
        ("description", .str p.description),
        ("difficulty_level", .str p.difficulty_level),
        ("duration_weeks", .num p.duration_weeks),
        ("source", .str p.source),
        ("exercises", .arr (p.exercises.map exerciseToJson)),
        ("nutrition_tips", .arr (p.nutrition_tips.map Json.str))]

/-- Outcome of the Groq fetch. `netError` covers a rejected `fetch` or
`response.json()` (handled by the outer catch); `response` carries the HTTP
`ok` flag, the extracted `content` string (empty when absent), and the
oracle outcome of `JSON.parse` on the cleaned content. -/
inductive GroqOutcome where
  | netError : GroqOutcome
  | response (ok : Bool) (content : String) (parsed : Option Json) : GroqOutcome

/-- The serve handler after the CORS-preflight branch, as a function from
the request body (`none` when `req.json()` rejects; `some up` carries the
possibly-absent `userProfile`), the `GROQ_API_KEY` environment value, and
the fetch outcome, to the HTTP status and JSON response body.

When the key is configured but `userProfile` is absent, the property read
`userProfile.fitness_goals` on line 79 throws, so the outer catch returns
`createFallbackPlan(null)`. -/
def handleRequest (reqBody : Option (Option UserProfile))
    (apiKey : Option String) (outcome : GroqOutcome) : Nat × Json :=
  match reqBody with
  | none => (200, planToJson (createFallbackPlan none))
  | some profile =>
    match apiKey with
    | none => (200, planToJson (createFallbackPlan profile))
    | some key =>
      if jsTrim key = "" then (200, planToJson (createFallbackPlan profile))
      else
        match profile with
        | none => (200, planToJson (createFallbackPlan none))
        | some p =>
          match outcome with
          | .netError => (200, planToJson (createFallbackPlan none))
          | .response ok content parsed =>
            if ok = false then (200, planToJson (createFallbackPlan (some p)))
            else if jsTrim content = "" then (200, planToJson (createFallbackPlan (some p)))
            else
              match parsed with
              | none => (200, planToJson (createFallbackPlan (some p)))
              | some j =>
                let j1 := fixDifficulty j p
                if structureOk j1 = false then
                  (200, planToJson (createFallbackPlan (some p)))
                else (200, groqBody j p)

end GenPlan

namespace GenPlan

/-- Whether a response body carries a valid `difficulty_level` string. -/
def difficultyOk (j : Json) : Bool :=
  match Json.getField j "difficulty_level" with
  | some (.str s) => decide (s ∈ validLevels)
  | _ => false

theorem mapFitnessLevelToDifficulty_valid (s : String) :
    mapFitnessLevelToDifficulty s ∈ validLevels := by
  unfold mapFitnessLevelToDifficulty validLevels
  split_ifs <;> simp

theorem planToJson_difficulty (p : Plan) :
    Json.getField (planToJson p) "difficulty_level" = some (.str p.difficulty_level) := by
  simp [planToJson, Json.getField, List.lookup]

theorem planToJson_exercises (p : Plan) :
    Json.getField (planToJson p) "exercises" =
      some (.arr (p.exercises.map exerciseToJson)) := by
  simp [planToJson, Json.getField, List.lookup]

theorem createFallbackPlan_difficulty (q : Option UserProfile) :
    (createFallbackPlan q).difficulty_level =
      mapFitnessLevelToDifficulty (levelOf q) := rfl

theorem fallback_body_ok (q : Option UserProfile) :
    difficultyOk (planToJson (createFallbackPlan q)) = true ∧
    Json.isArray (Json.getField (planToJson (createFallbackPlan q)) "exercises") = true := by
  constructor
  · rw [difficultyOk, planToJson_difficulty, createFallbackPlan_difficulty]
    simp [mapFitnessLevelToDifficulty_valid]
  · rw [planToJson_exercises]
    simp [Json.isArray]

theorem structureOk_fixDifficulty (j : Json) (p : UserProfile) :
    structureOk (fixDifficulty j p) = structureOk j := by
  unfold fixDifficulty
  cases hj : Json.getField j "difficulty_level" with
  | none =>
    unfold structureOk
    rw [Json.getField_setField_other _ _ _ _ (by decide),
        Json.getField_setField_other _ _ _ _ (by decide)]
  | some v =>
    cases v <;>
      first
      | (unfold structureOk
         rw [Json.getField_setField_other _ _ _ _ (by decide),
             Json.getField_setField_other _ _ _ _ (by decide)])
      | (rename_i s
         by_cases hs : s ∈ validLevels
         · simp [hs]
         · simp only [hs, if_false]
           unfold structureOk
           rw [Json.getField_setField_other _ _ _ _ (by decide),
               Json.getField_setField_other _ _ _ _ (by decide)])

theorem difficultyOk_congr (a b : Json)
    (hab : Json.getField a "difficulty_level" = Json.getField b "difficulty_level") :
    difficultyOk a = difficultyOk b := by
  unfold difficultyOk
  rw [hab]

theorem difficultyOk_fixDifficulty_obj (fs : List (String × Json)) (p : UserProfile) :
    difficultyOk (fixDifficulty (Json.obj fs) p) = true := by
  have hset : difficultyOk (Json.setField (Json.obj fs) "difficulty_level"
      (Json.str (mapFitnessOpt p.fitness_level))) = true := by
    rw [difficultyOk, Json.getField_setField_same]
    simp [mapFitnessOpt, mapFitnessLevelToDifficulty_valid]
  unfold fixDifficulty
  cases hj : Json.getField (Json.obj fs) "difficulty_level" with
  | none => exact hset
  | some v =>
    cases v with
    | str s =>
      by_cases hs : s ∈ validLevels
      · simp only [hs, if_true]
        rw [difficultyOk, hj]
        simp [hs]
      · simp only [hs, if_false]
        exact hset
    | null => exact hset
    | bool b => exact hset
    | num n => exact hset
    | arr l => exact hset
    | obj o => exact hset

theorem groqBody_ok (j : Json) (p : UserProfile)
    (h : structureOk (fixDifficulty j p) = true) :
    difficultyOk (groqBody j p) = true ∧
    Json.isArray (Json.getField (groqBody j p) "exercises") = true := by
  have hexc : Json.getField (groqBody j p) "exercises" =
      Json.getField (fixDifficulty j p) "exercises" := by
    unfold groqBody
    rw [Json.getField_setField_other _ _ _ _ (by decide),
        Json.getField_setField_other _ _ _ _ (by decide)]
  have hdiff : Json.getField (groqBody j p) "difficulty_level" =
      Json.getField (fixDifficulty j p) "difficulty_level" := by
    unfold groqBody
    rw [Json.getField_setField_other _ _ _ _ (by decide),
        Json.getField_setField_other _ _ _ _ (by decide)]
  constructor
  · -- j must be an object: otherwise its `title` read is undefined and the
    -- structure check would already have failed
    rw [difficultyOk_congr _ _ hdiff]
    cases j with
    | obj fs => exact difficultyOk_fixDifficulty_obj fs p
    | null =>
      rw [structureOk_fixDifficulty] at h
      simp [structureOk, Json.getField, Json.truthyOpt] at h
    | bool b =>
      rw [structureOk_fixDifficulty] at h
      simp [structureOk, Json.getField, Json.truthyOpt] at h
    | num n =>
      rw [structureOk_fixDifficulty] at h
      simp [structureOk, Json.getField, Json.truthyOpt] at h
    | str s =>
      rw [structureOk_fixDifficulty] at h
      simp [structureOk, Json.getField, Json.truthyOpt] at h
    | arr l =>
      rw [structureOk_fixDifficulty] at h
      simp [structureOk, Json.getField, Json.truthyOpt] at h
  · rw [hexc]
    unfold structureOk at h
    simp only [Bool.and_eq_true] at h
    exact h.2

end GenPlan

namespace GenPlan

/-- The unavailability conditions the claim enumerates: key missing or
empty, non-OK HTTP response, empty response content, unparseable content,
or parsed content lacking a truthy `title` or an array `exercises`. -/
def llmUnavailable (apiKey : Option String) (outcome : GroqOutcome) : Prop :=
  apiKey = none ∨
  (∃ k, apiKey = some k ∧ jsTrim k = "") ∨
  (∃ content parsed, outcome = .response false content parsed) ∨
  (∃ ok content parsed, outcome = .response ok content parsed ∧ jsTrim content = "") ∨
  (∃ ok content, outcome = .response ok content none) ∨
  (∃ ok content j, outcome = .response ok content (some j) ∧ structureOk j = false)

/-- C3: every generation request gets HTTP 200 with a body whose
`difficulty_level` is one of "iniciante", "intermediario", "avancado" and
whose `exercises` field is an array, and whenever the LLM API is
unavailable in one of the enumerated senses the body is exactly the
serialised `createFallbackPlan(userProfile)`. -/
theorem C3_generate_plan_always_200_fallback :
    (∀ (reqBody : Option (Option UserProfile)) (apiKey : Option String)
        (outcome : GroqOutcome),
      (handleRequest reqBody apiKey outcome).1 = 200 ∧
      difficultyOk (handleRequest reqBody apiKey outcome).2 = true ∧
      Json.isArray
        (Json.getField (handleRequest reqBody apiKey outcome).2 "exercises") = true) ∧
    (∀ (profile : Option UserProfile) (apiKey : Option String)
        (outcome : GroqOutcome),
      llmUnavailable apiKey outcome →
      (handleRequest (some profile) apiKey outcome).2 =
        planToJson (createFallbackPlan profile)) := by
  constructor
  · intro reqBody apiKey outcome
    match reqBody with
    | none => exact ⟨rfl, (fallback_body_ok none).1, (fallback_body_ok none).2⟩
    | some profile =>
      match apiKey with
      | none => exact ⟨rfl, (fallback_body_ok profile).1, (fallback_body_ok profile).2⟩
      | some key =>
        unfold handleRequest
        by_cases hk : jsTrim key = ""
        · simp only [hk, if_true]
          exact ⟨by trivial, (fallback_body_ok profile).1, (fallback_body_ok profile).2⟩
        simp only [hk, if_false]
        match profile with
        | none => exact ⟨rfl, (fallback_body_ok none).1, (fallback_body_ok none).2⟩
        | some p =>
          match outcome with
          | .netError => exact ⟨rfl, (fallback_body_ok none).1, (fallback_body_ok none).2⟩
          | .response ok content parsed =>
            by_cases hok : ok = false
            · simp only [hok, if_true]
              exact ⟨by trivial, (fallback_body_ok (some p)).1, (fallback_body_ok (some p)).2⟩
            simp only [hok, if_false]
            by_cases hc : jsTrim content = ""
            · simp only [hc, if_true]
              exact ⟨by trivial, (fallback_body_ok (some p)).1, (fallback_body_ok (some p)).2⟩
            simp only [hc, if_false]
            match parsed with
            | none => exact ⟨rfl, (fallback_body_ok (some p)).1, (fallback_body_ok (some p)).2⟩
            | some j =>
              by_cases hs : structureOk (fixDifficulty j p) = false
              · simp only [hs, if_true]
                exact ⟨rfl, (fallback_body_ok (some p)).1, (fallback_body_ok (some p)).2⟩
              · simp only [hs, if_false]
                have hs' : structureOk (fixDifficulty j p) = true := by
                  revert hs
                  cases structureOk (fixDifficulty j p) <;> simp
                exact ⟨rfl, (groqBody_ok j p hs').1, (groqBody_ok j p hs').2⟩
  · intro profile apiKey outcome hun
    rcases hun with h | ⟨k, hk, hke⟩ | ⟨content, parsed, ho⟩ |
      ⟨ok, content, parsed, ho, hc⟩ | ⟨ok, content, ho⟩ | ⟨ok, content, j, ho, hstr⟩
    · subst h; rfl
    · subst hk
      unfold handleRequest
      simp only [hke, if_true]
    · subst ho
      match apiKey with
      | none => rfl
      | some key =>
        unfold handleRequest
        by_cases hk : jsTrim key = ""
        · simp only [hk, if_true]
        · simp only [hk, if_false]
          match profile with
          | none => rfl
          | some p => simp
    · subst ho
      match apiKey with
      | none => rfl
      | some key =>
        unfold handleRequest
        by_cases hk : jsTrim key = ""
        · simp only [hk, if_true]
        · simp only [hk, if_false]
          match profile with
          | none => rfl
          | some p =>
            by_cases hok : ok = false
            · simp [hok]
            · simp [hok, hc]
    · subst ho
      match apiKey with
      | none => rfl
      | some key =>
        unfold handleRequest
        by_cases hk : jsTrim key = ""
        · simp only [hk, if_true]
        · simp only [hk, if_false]
          match profile with
          | none => rfl
          | some p =>
            by_cases hok : ok = false
            · simp [hok]
            · by_cases hc : jsTrim content = ""
              · simp [hok, hc]
              · simp [hok, hc]
    · subst ho
      match apiKey with
      | none => rfl
      | some key =>
        unfold handleRequest
        by_cases hk : jsTrim key = ""
        · simp only [hk, if_true]
        · simp only [hk, if_false]
          match profile with
          | none => rfl
          | some p =>
            have hfix : structureOk (fixDifficulty j p) = false := by
              rw [structureOk_fixDifficulty]; exact hstr
            by_cases hok : ok = false
            · simp [hok]
            · by_cases hc : jsTrim content = ""
              · simp [hok, hc]
              · simp [hok, hc, hfix]

/-- C3 witness: a missing API key on a request with a concrete profile
yields the serialised fallback plan with a valid body. -/
theorem C3_generate_plan_always_200_fallback_witness :
    (handleRequest (some none) none .netError).1 = 200 ∧
    (handleRequest (some none) none .netError).2 =
      planToJson (createFallbackPlan none) :=
  ⟨(C3_generate_plan_always_200_fallback.1 (some none) none .netError).1,
   C3_generate_plan_always_200_fallback.2 none none .netError (Or.inl rfl)⟩

end GenPlan

namespace GenPlan

theorem dayExercises_length (letter : String) :
    ((exercisesByDay letter).getD dayAExercises).length = 3 := by
  unfold exercisesByDay dayAExercises
  split_ifs <;> rfl

theorem dayBlock_length (difficultyLevel goalDesc : String) (week day : Nat) :
    (dayBlock difficultyLevel goalDesc week day).length = 4 := by
  unfold dayBlock
  simp only [List.length_cons, List.length_map, List.enum_length]
  rw [dayExercises_length]

theorem fallbackExercises_length (difficultyLevel goalDesc : String) (n : Nat) :
    (fallbackExercises difficultyLevel goalDesc n).length = 48 * n := by
  unfold fallbackExercises
  rw [List.length_flatMap]
  have inner : ∀ w : Nat,
      ((List.range' 1 n).flatMap
        (fun day => dayBlock difficultyLevel goalDesc w day)).length = 4 * n := by
    intro w
    rw [List.length_flatMap]
    have hconst : ∀ b ∈ List.map
        (List.length ∘ fun day => dayBlock difficultyLevel goalDesc w day)
        (List.range' 1 n), b = 4 := by
      intro b hb
      rw [List.mem_map] at hb
      obtain ⟨day, _, hday⟩ := hb
      rw [← hday]
      simp [dayBlock_length]
    rw [List.eq_replicate_of_mem hconst]
    simp [List.sum_replicate, smul_eq_mul, Nat.mul_comm]
  have hconst2 : ∀ b ∈ List.map
      (List.length ∘ fun week => (List.range' 1 n).flatMap
        (fun day => dayBlock difficultyLevel goalDesc week day))
      (List.range' 1 12), b = 4 * n := by
    intro b hb
    rw [List.mem_map] at hb
    obtain ⟨week, _, hweek⟩ := hb
    rw [← hweek]
    simp [inner]
  rw [List.eq_replicate_of_mem hconst2]
  simp [List.sum_replicate, smul_eq_mul]
  ring

/-- C7: `createFallbackPlan` is deterministic and its output depends only
on the fitness level, the first fitness goal and the available-days count
read from the profile (each with the code defaults when absent, empty or
null): two calls whose profiles agree on those three reads return
structurally identical plans, and in particular structurally equal inputs
give identical outputs. -/
theorem C7_fallback_plan_deterministic (p q : Option UserProfile)
    (h1 : levelOf p = levelOf q) (h2 : firstGoalOf p = firstGoalOf q)
    (h3 : daysOf p = daysOf q) :
    createFallbackPlan p = createFallbackPlan q := by
  unfold createFallbackPlan
  rw [h1, h2, h3]

/-- C7 witness: two profiles differing in age, gender, body data, session
duration, equipment, limitations and the tail of the goals list — but
agreeing on fitness level, first goal and available days — produce the
same plan. -/
theorem C7_fallback_plan_deterministic_witness :
    createFallbackPlan (some ⟨some 30, some "masculino", some 180, some 80,
        some "moderado", some ["perder_peso"], some 3, some 60,
        some "parque", some "nenhuma"⟩) =
    createFallbackPlan (some ⟨some 44, none, none, none,
        some "moderado", some ["perder_peso", "forca"], some 3, some 45,
        none, none⟩) :=
  C7_fallback_plan_deterministic _ _ rfl rfl rfl

/-- C9: for an available-days value between 1 and 7 the fallback plan holds
exactly 48 · d exercise entries; every (week, day) iteration contributes
one warm-up entry plus exactly 3 main entries, and the workout-day letters
beyond E fall back to the day-A exercise list. -/
theorem C9_fallback_plan_size (p : Option UserProfile) (d : Nat)
    (hd : daysOf p = d) (_hlo : 1 ≤ d) (_hhi : d ≤ 7) :
    (createFallbackPlan p).exercises.length = 48 * d ∧
    (∀ difficultyLevel goalDesc week day,
       (dayBlock difficultyLevel goalDesc week day).length = 4) ∧
    (∀ day, 6 ≤ day → day ≤ 7 →
       exercisesByDay (dayLetters.getD day "undefined") = none ∧
       (exercisesByDay (dayLetters.getD day "undefined")).getD dayAExercises =
         dayAExercises) := by
  refine ⟨?_, fun dl gd w day => dayBlock_length dl gd w day, ?_⟩
  · show (fallbackExercises _ _ (daysOf p)).length = 48 * d
    rw [hd, fallbackExercises_length]
  · intro day h6 h7
    interval_cases day <;> exact ⟨rfl, rfl⟩

/-- C9 witness: a profile with 5 available days yields 240 exercise
entries. -/
theorem C9_fallback_plan_size_witness :
    (createFallbackPlan (some ⟨none, none, none, none, none, none,
        some 5, none, none, none⟩)).exercises.length = 48 * 5 ∧
    (∀ difficultyLevel goalDesc week day,
       (dayBlock difficultyLevel goalDesc week day).length = 4) ∧
    (∀ day, 6 ≤ day → day ≤ 7 →
       exercisesByDay (dayLetters.getD day "undefined") = none ∧
       (exercisesByDay (dayLetters.getD day "undefined")).getD dayAExercises =
         dayAExercises) :=
  C9_fallback_plan_size _ 5 rfl (by norm_num) (by norm_num)

end GenPlan

/-! ## WorkoutPlanGenerator.tsx — plan construction and progress map
(claims C4, C8) -/

namespace Frontend

/-- Model of `x || dflt` on a possibly-undefined JSON value. -/
def jsOr (o : Option Json) (dflt : Json) : Json :=
  match o with
  | some v => if Json.truthy v then v else dflt
  | none => dflt

/-- Model of `typeof data === "object"` (arrays and null also satisfy it). -/
def isJsObject : Json → Bool
  | .obj _ => true
  | .arr _ => true
  | .null => true
  | _ => false

/-- Line 369: the guard
`!data || typeof data !== "object" || (!data.title && !data.exercises)`
throws; `planAccepted` is its negation. -/
def planAccepted (data : Json) : Bool :=
  Json.truthy data && isJsObject data &&
    (Json.truthyOpt (Json.getField data "title") ||
     Json.truthyOpt (Json.getField data "exercises"))

/-- The `plan` object literal of `generateWorkoutPlan` (lines 372-379),
field by field.  Field values keep their JSON form; the declared
TypeScript types are not enforced at runtime. -/
structure BuiltPlan where
  title : Json
  description : Json
  difficulty_level : Json
  duration_weeks : Json
  exercises : Json
  nutrition_tips : Json

/-- Model of `generateWorkoutPlan` from the invoke response to the plan it saves and
displays; `none` is the thrown-error path. -/
def buildPlan (data : Json) : Option BuiltPlan :=
  if planAccepted data = false then none
  else some
    ⟨jsOr (Json.getField data "title") (.str "Plano de Treino Personalizado"),
     jsOr (Json.getField data "description") (.str "Plano gerado com base no seu perfil"),
     jsOr (Json.getField data "difficulty_level") (.str "iniciante"),
     jsOr (Json.getField data "duration_weeks") (.num 8),
     jsOr (Json.getField data "exercises") (.arr []),
     jsOr (Json.getField data "nutrition_tips") (.arr [])⟩

/-- The `progressMap` React state: a string-keyed map of booleans.  The
displayed completion state of an item is `progressMap.get(id) || false`. -/
def ProgressMap : Type := List (String × Bool)

/-- Model of `Map.prototype.get(k) || false`. -/
def displayed (m : ProgressMap) (k : String) : Bool :=
  ((m : List (String × Bool)).lookup k).getD false

/-- Model of `Map.prototype.set(k, v)`: overwrite the binding or append it. -/
def mapSet (m : ProgressMap) (k : String) (v : Bool) : ProgressMap :=
  match m, k, v with
  | [], k, v => [(k, v)]
  | (k', v') :: rest, k, v =>
      if k' = k then (k, v) :: rest else (k', v') :: mapSet rest k v

theorem lookup_mapSet_same (m : ProgressMap) (k : String) (v : Bool) :
    (mapSet m k v : List (String × Bool)).lookup k = some v := by
  induction m with
  | nil => simp [mapSet, List.lookup]
  | cons hd tl ih =>
    obtain ⟨k', v'⟩ := hd
    by_cases h : k' = k
    · simp [mapSet, h, List.lookup]
    · simp only [mapSet, if_neg h, List.lookup]
      have : (k == k') = false := by
        simp [beq_iff_eq]
        exact fun hc => h hc.symm
      simp [this, ih]

/-- The state transition of `handleProgressChange` for item `k` called with
`currentStatus = s` (lines 228-255): the entry is optimistically set to
`!s`; when the upsert fails the entry is set back to `s`. -/
def handleProgressChange (m : ProgressMap) (k : String) (s : Bool)
    (persistOk : Bool) : ProgressMap :=
  let optimistic := mapSet m k (!s)
  if persistOk then optimistic else mapSet optimistic k s

/-- C8: calling `handleProgressChange` with the currently displayed status
first shows the toggled status optimistically, and when persisting fails
the displayed status of the item is restored to exactly what it was before
the call. -/
theorem C8_progress_toggle_restores_on_error (m : ProgressMap) (k : String) :
    displayed (mapSet m k (!displayed m k)) k = !displayed m k ∧
    displayed (handleProgressChange m k (displayed m k) false) k =
      displayed m k := by
  constructor
  · rw [displayed, lookup_mapSet_same]
    rfl
  · rw [handleProgressChange]
    simp only [if_neg (Bool.false_ne_true)]
    rw [displayed, lookup_mapSet_same]
    rfl

end Frontend

namespace Frontend

/-- An empty user profile (every field absent). -/
def emptyProfile : GenPlan.UserProfile :=
  ⟨none, none, none, none, none, none, none, none, none, none⟩

/-- A parsed LLM response that passes the backend structure check (truthy
`title`, array `exercises`) but carries no `duration_weeks` field; the
backend validation never inspects `duration_weeks`. -/
def responseWithoutDuration : Json :=
  .obj [("title", .str "Plano Teste"), ("exercises", .arr [])]

/-- A response that does carry `duration_weeks: 12`. -/
def responseWithDuration12 : Json :=
  .obj [("title", .str "Plano Teste"), ("exercises", .arr []),
        ("duration_weeks", .num 12)]

/-- C4 counterexample: when the LLM answer lacks `duration_weeks`, the
backend returns it unchanged (adding only `difficulty_level`, `source` and
`generated_for`), and the frontend then builds and persists a plan whose
`duration_weeks` is 8, not 12. -/
theorem C4_counterexample_duration_weeks_8 :
    Option.map BuiltPlan.duration_weeks
      (buildPlan
        (GenPlan.handleRequest (some (some emptyProfile)) (some "test-key")
          (.response true "raw-content" (some responseWithoutDuration))).2) =
      some (Json.num 8) ∧
    Json.num 8 ≠ Json.num 12 := by
  constructor
  · rfl
  · intro h
    cases h

/-- C4 amended: the fallback plan always has `duration_weeks = 12`, while
the plan the frontend builds copies the `duration_weeks` of the API
response when that field is truthy and otherwise defaults to 8 — so it is
12 exactly when the response says 12, which the backend does not
guarantee. -/
theorem C4_amended_duration_weeks :
    (∀ p : Option GenPlan.UserProfile,
       (GenPlan.createFallbackPlan p).duration_weeks = 12) ∧
    (∀ (data : Json) (bp : BuiltPlan), buildPlan data = some bp →
       bp.duration_weeks = jsOr (Json.getField data "duration_weeks") (.num 8) ∧
       (Json.getField data "duration_weeks" = some (.num 12) →
          bp.duration_weeks = .num 12)) := by
  constructor
  · intro p
    rfl
  · intro data bp hbp
    unfold buildPlan at hbp
    by_cases h : planAccepted data = false
    · rw [if_pos h] at hbp
      cases hbp
    · rw [if_neg h] at hbp
      have hbp' := Option.some.inj hbp
      constructor
      · rw [← hbp']
      · intro h12
        rw [← hbp']
        show jsOr (Json.getField data "duration_weeks") (.num 8) = .num 12
        rw [h12]
        rfl

/-- C4 amended witness: the empty-profile fallback plan has 12 weeks, and a
response carrying `duration_weeks: 12` yields a built plan with 12 weeks. -/
theorem C4_amended_duration_weeks_witness :
    (GenPlan.createFallbackPlan none).duration_weeks = 12 ∧
    (⟨.str "Plano Teste", .str "Plano gerado com base no seu perfil",
      .str "iniciante", .num 12, .arr [], .arr []⟩ : BuiltPlan).duration_weeks =
      .num 12 :=
  ⟨C4_amended_duration_weeks.1 none,
   (C4_amended_duration_weeks.2 responseWithDuration12
     ⟨.str "Plano Teste", .str "Plano gerado com base no seu perfil",
      .str "iniciante", .num 12, .arr [], .arr []⟩ rfl).2 rfl⟩

end Frontend

/-! ## WorkoutPlanGenerator.tsx — WorkoutStreak (claim C5)

Calendar dates are embedded as days since 1970-01-01.  The rows fetched by
`fetchStreakData` are represented by the list of the calendar days of their
`created_at` timestamps (in local time); `new Date(p.created_at).toDateString()`
renders a day as `"Www Mmm DD YYYY"`, and `new Date(dateString)` recovers
local midnight of the same day, so the millisecond difference of two parsed
date strings is exactly their day difference times 86400000 (days are
treated as exactly 24 h).  `toDateString` is injective — distinct days give
distinct year/month/day renderings — so deduplicating day numbers is the
same as the `Set` deduplication of the strings, and comparing two date
strings for equality is the same as comparing the day numbers. -/

namespace Streak

/-- Lexicographic comparison of character lists by code point, the order
JavaScript `Array.prototype.sort()` applies to strings (ASCII here, where
UTF-16 code units and code points agree). -/
def lexLe : List Char → List Char → Bool
  | [], _ => true
  | _ :: _, [] => false
  | a :: as, b :: bs =>
      if a.val < b.val then true
      else if b.val < a.val then false
      else lexLe as bs

/-- The default-comparator string order of `Array.prototype.sort()`. -/
def strLe (a b : String) : Bool := lexLe a.data b.data

/-- Month renderings of `Date.prototype.toDateString`. -/
def monthNames : List String :=
  ["Jan", "Feb", "Mar", "Apr", "May", "Jun",
   "Jul", "Aug", "Sep", "Oct", "Nov", "Dec"]

/-- Weekday renderings, indexed by day-number mod 7 (1970-01-01 was a
Thursday). -/
def weekdayNames : List String :=
  ["Thu", "Fri", "Sat", "Sun", "Mon", "Tue", "Wed"]

/-- Days-to-civil-date conversion (proleptic Gregorian, valid for every
day number at or after 1970-01-01): returns (year, month, day). -/
def civilFromDays (z : Nat) : Nat × Nat × Nat :=
  let zz := z + 719468
  let era := zz / 146097
  let doe := zz % 146097
  let yoe := (doe - doe / 1460 + doe / 36524 - doe / 146096) / 365
  let y := yoe + era * 400
  let doy := doe - (365 * yoe + yoe / 4 - yoe / 100)
  let mp := (5 * doy + 2) / 153
  let d := doy - (153 * mp + 2) / 5 + 1
  let m := if mp < 10 then mp + 3 else mp - 9
  (if m ≤ 2 then y + 1 else y, m, d)

/-- Two-digit zero-padded day of month. -/
def pad2 (n : Nat) : String :=
  if n < 10 then "0" ++ toString n else toString n

/-- Model of `Date.prototype.toDateString` for a day number:
`"Www Mmm DD YYYY"`, e.g. `"Thu Jan 01 1970"`. -/
def toDateString (day : Nat) : String :=
  let c := civilFromDays day
  weekdayNames.getD (day % 7) "" ++ " " ++ monthNames.getD (c.2.1 - 1) "" ++ " " ++
    pad2 c.2.2 ++ " " ++ toString c.1

/-- Model of `uniqueDates` (lines 930-931): deduplicate the workout days and sort
them BY THEIR DATE STRINGS — the JavaScript default sort compares the
`toDateString` renderings lexicographically, not chronologically. -/
def uniqueDates (days : List Nat) : List Nat :=
  List.insertionSort (fun a b => strLe (toDateString a) (toDateString b) = true)
    days.dedup

/-- The backwards walk of `calculateCurrentStreak` (lines 970-981) over the
part of the sorted array before the last entry, given in reverse order:
count while `Math.floor((dates[i+1] - dates[i]) / 86400000) === 1`. -/
def consecRun : Nat → List Nat → Nat
  | _, [] => 0
  | cur, p :: rest =>
      if (cur : Int) - (p : Int) = 1 then 1 + consecRun p rest else 0

/-- Model of `calculateCurrentStreak` (lines 958-983): 0 when the LAST date string
of the sorted array is neither today nor yesterday, else one plus the
backwards consecutive-day walk.  `yesterday` is `today - 1`
(`Date.now() - 24*60*60*1000`). -/
def calculateCurrentStreak (today : Nat) (dates : List Nat) : Nat :=
  match dates.reverse with
  | [] => 0
  | last :: rest =>
    if toDateString last ≠ toDateString today ∧
       toDateString last ≠ toDateString (today - 1) then 0
    else 1 + consecRun last rest

/-- Model of `fetchStreakData`: `currentStreak` is 0 when there are no completed
rows, else `calculateCurrentStreak` over `uniqueDates`. -/
def codeCurrentStreak (today : Nat) (days : List Nat) : Nat :=
  if days.isEmpty then 0 else calculateCurrentStreak today (uniqueDates days)

/-- The most recent completed-workout calendar day (`foldl max` is the
maximum of the list; 0 on the empty list, which is guarded out). -/
def mostRecent (days : List Nat) : Nat := days.foldl max 0

/-- The number of consecutive calendar days ending at `m` on which at
least one workout was completed: count down from `m` while the day is a
workout day. -/
def consecEndingAt (days : List Nat) : Nat → Nat
  | 0 => if 0 ∈ days then 1 else 0
  | m + 1 => if (m + 1) ∈ days then 1 + consecEndingAt days m else 0

/-- The claim's description of the computation: 0 when the most recent
workout day is neither today nor yesterday, else the consecutive run of
workout days ending at the most recent one. -/
def specCurrentStreak (today : Nat) (days : List Nat) : Nat :=
  if days.isEmpty then 0
  else if mostRecent days ≠ today ∧ mostRecent days ≠ today - 1 then 0
  else consecEndingAt days (mostRecent days)

end Streak

namespace Streak

theorem foldl_max_init_le (l : List Nat) (a : Nat) : a ≤ l.foldl max a := by
  induction l generalizing a with
  | nil => exact le_refl a
  | cons hd tl ih =>
    simp only [List.foldl]
    exact le_trans (Nat.le_max_left a hd) (ih (max a hd))

theorem foldl_max_le_of_mem (l : List Nat) (a x : Nat) (hx : x ∈ l) :
    x ≤ l.foldl max a := by
  induction l generalizing a with
  | nil => cases hx
  | cons hd tl ih =>
    simp only [List.foldl]
    rcases List.mem_cons.1 hx with rfl | hx'
    · exact le_trans (Nat.le_max_right a x) (foldl_max_init_le tl (max a x))
    · exact ih _ hx'

theorem foldl_max_mem_or_eq (l : List Nat) (a : Nat) :
    l.foldl max a ∈ l ∨ l.foldl max a = a := by
  induction l generalizing a with
  | nil => exact Or.inr rfl
  | cons hd tl ih =>
    simp only [List.foldl]
    rcases ih (max a hd) with h | h
    · exact Or.inl (List.mem_cons_of_mem _ h)
    · rcases max_choice a hd with hm | hm
      · rw [hm] at h ⊢
        exact Or.inr h
      · rw [hm] at h ⊢
        rw [h]
        exact Or.inl (List.mem_cons_self _ _)

theorem consecEndingAt_congr {l1 l2 : List Nat}
    (h : ∀ x : Nat, x ∈ l1 ↔ x ∈ l2) :
    ∀ n, consecEndingAt l1 n = consecEndingAt l2 n := by
  intro n
  induction n with
  | zero => simp [consecEndingAt, h]
  | succ k ih => simp [consecEndingAt, h, ih]

theorem consecEndingAt_of_not_mem {l : List Nat} {n : Nat} (h : n ∉ l) :
    consecEndingAt l n = 0 := by
  cases n <;> simp [consecEndingAt, h]

theorem consecEndingAt_cons_of_gt (a : Nat) (l : List Nat) :
    ∀ n, n < a → consecEndingAt (a :: l) n = consecEndingAt l n := by
  intro n
  induction n with
  | zero =>
    intro h
    have h0 : ¬ ((0 : Nat) = a) := by omega
    simp [consecEndingAt, List.mem_cons, h0]
  | succ k ih =>
    intro h
    have h1 : ¬ (k + 1 = a) := by omega
    have h2 : k < a := by omega
    simp [consecEndingAt, List.mem_cons, h1, ih h2]

/-- On a strictly descending list headed by `m`, the backwards walk of the
code computes exactly the consecutive-day run ending at `m` over the
members of the list. -/
theorem walk_eq : ∀ (R : List Nat) (m : Nat),
    List.Pairwise (· > ·) (m :: R) →
    1 + consecRun m R = consecEndingAt (m :: R) m := by
  intro R
  induction R with
  | nil =>
    intro m _
    cases m with
    | zero => simp [consecRun, consecEndingAt]
    | succ k =>
      have hk : k ∉ [k + 1] := by simp
      simp [consecRun, consecEndingAt, consecEndingAt_of_not_mem hk]
  | cons p rest ih =>
    intro m hpw
    have hmp : m > p := (List.pairwise_cons.1 hpw).1 p (by simp)
    have hrest : List.Pairwise (· > ·) (p :: rest) := (List.pairwise_cons.1 hpw).2
    by_cases hd : (m : Int) - (p : Int) = 1
    · have hm : m = p + 1 := by omega
      subst hm
      have hc : ((p + 1 : Nat) : Int) - (p : Int) = 1 := by push_cast; ring
      have hmem : (p + 1) ∈ (p + 1) :: p :: rest := by simp
      rw [show consecEndingAt ((p + 1) :: p :: rest) (p + 1) =
            1 + consecEndingAt ((p + 1) :: p :: rest) p from by
          simp [consecEndingAt, hmem]]
      rw [consecEndingAt_cons_of_gt (p + 1) (p :: rest) p (by omega)]
      rw [← ih p hrest]
      simp [consecRun, hc]
    · have hm1 : 1 ≤ m := by omega
      obtain ⟨k, rfl⟩ : ∃ k, m = k + 1 := ⟨m - 1, by omega⟩
      have hknotmem : k ∉ (k + 1) :: p :: rest := by
        intro hmem
        rcases List.mem_cons.1 hmem with h1 | hmem2
        · omega
        rcases List.mem_cons.1 hmem2 with h2 | h3
        · apply hd
          subst h2
          push_cast
          ring
        · have hkp := (List.pairwise_cons.1 hrest).1 k h3
          apply hd
          omega
      have hmem : (k + 1) ∈ (k + 1) :: p :: rest := by simp
      have hrun : consecRun (k + 1) (p :: rest) = 0 := by
        rw [consecRun, if_neg hd]
      have hend : consecEndingAt ((k + 1) :: p :: rest) (k + 1) =
          1 + consecEndingAt ((k + 1) :: p :: rest) k := by
        rw [consecEndingAt, if_pos hmem]
      rw [hrun, hend, consecEndingAt_of_not_mem hknotmem]

end Streak

namespace Streak

/-- C5 counterexample: completed workouts on day 6 ("Wed Jan 07 1970") and
day 8 ("Fri Jan 09 1970"), with day 8 as today.  The most recent workout
day IS today, so the claim demands a streak of 1 (day 7 has no workout).
But the lexicographic sort of the date strings puts "Wed Jan 07 1970"
after "Fri Jan 09 1970", so the code inspects the Wednesday as the last
workout, finds it is neither today nor yesterday, and returns 0. -/
theorem C5_counterexample_string_sort :
    mostRecent [8, 6] = 8 ∧
    codeCurrentStreak 8 [8, 6] = 0 ∧
    specCurrentStreak 8 [8, 6] = 1 := by
  refine ⟨by decide, by decide, by decide⟩

/-- C5 amended: whenever the distinct workout days sorted by their date
strings happen to come out in chronological order (and the date-string
rendering separates the relevant days, which is true of the real
calendar), the computed streak is as the claim states: 0 when the most
recent workout day is neither today nor yesterday, and otherwise the
number of consecutive workout days ending at the most recent one. -/
theorem C5_amended_current_streak (today : Nat) (days : List Nat)
    (hsorted : List.Sorted (· < ·) (uniqueDates days))
    (hinj : ∀ a ∈ uniqueDates days,
        (toDateString a = toDateString today → a = today) ∧
        (toDateString a = toDateString (today - 1) → a = today - 1)) :
    codeCurrentStreak today days = specCurrentStreak today days := by
  unfold codeCurrentStreak specCurrentStreak
  by_cases hempty : days.isEmpty
  · rw [if_pos hempty, if_pos hempty]
  rw [if_neg hempty, if_neg hempty]
  have hdays : days ≠ [] := by
    intro h
    subst h
    simp at hempty
  set L := uniqueDates days with hL
  have hperm : L.Perm days.dedup := List.perm_insertionSort _ _
  have hmem : ∀ x : Nat, x ∈ L ↔ x ∈ days := by
    intro x
    rw [hperm.mem_iff, List.mem_dedup]
  have hLne : L ≠ [] := by
    intro h
    apply hdays
    have hlen := hperm.length_eq
    rw [h] at hlen
    have hded : days.dedup = [] := List.length_eq_zero.1 hlen.symm
    exact (List.dedup_eq_nil days).1 hded
  cases hrev : L.reverse with
  | nil => exact absurd (List.reverse_eq_nil_iff.1 hrev) hLne
  | cons m' R =>
    have hpairrev : List.Pairwise (· > ·) (m' :: R) := by
      rw [← hrev, List.pairwise_reverse]
      exact hsorted
    have hm'memL : m' ∈ L := by
      rw [← List.mem_reverse, hrev]
      simp
    have hm'max : ∀ x ∈ L, x ≤ m' := by
      intro x hx
      have hx' : x ∈ m' :: R := by
        rw [← hrev, List.mem_reverse]
        exact hx
      rcases List.mem_cons.1 hx' with rfl | hxR
      · exact le_refl x
      · exact le_of_lt ((List.pairwise_cons.1 hpairrev).1 x hxR)
    have h1 : mostRecent days ≤ m' := by
      rcases foldl_max_mem_or_eq days 0 with hmem0 | heq0
      · exact hm'max _ ((hmem _).2 hmem0)
      · rw [mostRecent, heq0]
        exact Nat.zero_le m'
    have h2 : m' ≤ mostRecent days :=
      foldl_max_le_of_mem days 0 m' ((hmem m').1 hm'memL)
    have hmm : m' = mostRecent days := le_antisymm h2 h1
    have hcode : calculateCurrentStreak today L =
        if toDateString m' ≠ toDateString today ∧
           toDateString m' ≠ toDateString (today - 1) then 0
        else 1 + consecRun m' R := by
      unfold calculateCurrentStreak
      rw [hrev]
    rw [hcode]
    by_cases hb : m' ≠ today ∧ m' ≠ today - 1
    · rw [if_pos ⟨fun hc => hb.1 ((hinj m' hm'memL).1 hc),
            fun hc => hb.2 ((hinj m' hm'memL).2 hc)⟩]
      rw [if_pos (by rw [← hmm]; exact hb)]
    · rw [if_neg (fun hc => hb ⟨fun h => hc.1 (by rw [h]),
            fun h => hc.2 (by rw [h])⟩)]
      rw [if_neg (by rw [← hmm]; exact hb)]
      rw [← hmm, walk_eq R m' hpairrev]
      apply consecEndingAt_congr
      intro x
      rw [← hrev, List.mem_reverse]
      exact hmem x

/-- C5 amended witness: workouts on days 1 and 2 ("Fri Jan 02 1970",
"Sat Jan 03 1970" — here the string order IS chronological) with day 2 as
today: both the code and the claimed computation give a streak of 2. -/
theorem C5_amended_current_streak_witness :
    codeCurrentStreak 2 [1, 2] = specCurrentStreak 2 [1, 2] :=
  C5_amended_current_streak 2 [1, 2] (by decide) (by decide)

end Streak
